import Mathlib

/-
Verification of the `exit` Go package (exit-code resolution from error
values). The package maps a possibly-wrapped error value to an integer
process exit code, consulting an optional custom handler first.

Shallow embedding notes:
- Go `error` interface values are modelled by `Option Exit.GoError`:
  `none` is the nil error, `some e` a non-nil error value.
- The process-wide handler slot (`errorHandlerFn`, set via
  `SetErrorHandler`) is made an explicit parameter of `Code`, of type
  `Option Exit.ErrorHandlerFunc`: `none` means no handler installed.
- Go `int` carries exit codes around without any arithmetic, so `Int`
  models it exactly (no overflow can arise).
-/

namespace Exit

/--
Model of the Go error values the package can encounter, closed under the
chain-forming operations it uses (src/exit.go).
- `flagErrHelp`: the sentinel `flag.ErrHelp` of the standard library flag
  package, a unique `errors.New` value with no `Unwrap`.
- `pflagErrHelp`: the sentinel `pflag.ErrHelp` of github.com/spf13/pflag,
  a distinct `errors.New` value (message "pflag: help requested"); it
  neither equals `flag.ErrHelp` nor wraps it, and has no `Unwrap`.
- `base msg`: a plain error such as `errors.New(msg)`; no `Unwrap`, does
  not implement `ExitCode() int`.
- `exitErr code inner`: the package's carrier `exitError` struct
  (src/exit.go lines 116-123): wraps `inner`, `Unwrap` returns `inner`,
  `ExitCode` returns `code`.
- `foreignExit code msg`: a foreign error implementing `ExitCode() int`
  (e.g. `*exec.ExitError`), with no `Unwrap`.
- `wrap msg inner`: the result of `fmt.Errorf("...%w...", inner)`: has
  `Unwrap` returning `inner`, does not implement `ExitCode() int`.
-/
inductive GoError where
  | flagErrHelp : GoError
  | pflagErrHelp : GoError
  | base : String → GoError
  | exitErr : Int → GoError → GoError
  | foreignExit : Int → String → GoError
  | wrap : String → GoError → GoError
deriving DecidableEq, Repr

/--
The `Unwrap() error` method as exposed by the links of the chain:
the carrier `exitError` unwraps to its wrapped error (src/exit.go line
121), `fmt.Errorf` wrapping unwraps to the `%w` argument; sentinels,
plain errors and foreign exit errors expose no `Unwrap`.
-/
def Unwrap : GoError → Option GoError
  | .exitErr _ inner => some inner
  | .wrap _ inner => some inner
  | _ => none

/--
`errors.Is(err, target)`: at each link of the chain, compare the link
with `target` by Go interface-value equality, then follow `Unwrap`.
Constructor equality models Go value identity here: the two sentinel
constructors denote the unique sentinel values, and no link of the model
implements an `Is(error) bool` method.
-/
def errorsIs : GoError → GoError → Bool
  | .exitErr c inner, target =>
      if GoError.exitErr c inner = target then true else errorsIs inner target
  | .wrap m inner, target =>
      if GoError.wrap m inner = target then true else errorsIs inner target
  | err, target => decide (err = target)

/--
`errors.As(err, &exitErr)` for the target interface type `ExitError`
(src/exit.go lines 82-85): at each link, if the link implements
`ExitCode() int` the search stops there and yields that link; otherwise
traversal follows `Unwrap`. Only the carrier `exitErr` and foreign exit
errors implement the interface.
-/
def errorsAsExitError : GoError → Option GoError
  | .exitErr c inner => some (.exitErr c inner)
  | .foreignExit c m => some (.foreignExit c m)
  | .wrap _ inner => errorsAsExitError inner
  | _ => none

/--
The `ExitCode() int` method of the values implementing the `ExitError`
interface: the carrier returns its stored code (src/exit.go line 123), a
foreign exit error returns the child status it reports. The method does
not exist on the other constructors; the 0 in their arm is never reached
through `errorsAsExitError`.
-/
def ExitCode : GoError → Int
  | .exitErr code _ => code
  | .foreignExit code _ => code
  | _ => 0

-- Exit code constants from src/codes.go.

/-- success -/
def CodeOK : Int := 0
/-- generic error -/
def CodeErr : Int := 1
/-- command invoked with -help or -h flag but no such flag is defined -/
def CodeHelpErr : Int := 2
/-- command line usage error -/
def CodeUsage : Int := 64
/-- data format error -/
def CodeDataErr : Int := 65
/-- cannot open input -/
def CodeNoInput : Int := 66
/-- addressee unknown -/
def CodeNoUser : Int := 67
/-- host name unknown -/
def CodeNoHost : Int := 68
/-- service unavailable -/
def CodeUnavailable : Int := 69
/-- internal software error -/
def CodeSoftware : Int := 70
/-- system error -/
def CodeOSErr : Int := 71
/-- critical OS file missing -/
def CodeOSFile : Int := 72
/-- cannot create (user) output file -/
def CodeCantCreat : Int := 73
/-- input/output error -/
def CodeIOErr : Int := 74
/-- temp failure; user is invited to retry -/
def CodeTempFail : Int := 75
/-- remote error in protocol -/
def CodeProtocol : Int := 76
/-- permission denied -/
def CodeNoPerm : Int := 77
/-- configuration error -/
def CodeConfig : Int := 78

/--
`ErrorHandlerFunc` (src/exit.go line 173): may provide an exit code for
a (non-nil) error, signalling success through the second component.
-/
abbrev ErrorHandlerFunc : Type := GoError → Int × Bool

/--
`Error(code, err)` (src/exit.go lines 89-95): wraps `err` in an
`exitError` carrying `code`; a nil `err` is returned as is.
-/
def Error (code : Int) (err : Option GoError) : Option GoError :=
  match err with
  | none => none
  | some e => some (.exitErr code e)

/--
`Errorp(code, err)` (src/exit.go lines 112-114) runs `*err = Error(code,
*err)`; modelled as the function from the old slot value to the new one.
-/
def Errorp (code : Int) (err : Option GoError) : Option GoError :=
  Error code err

/--
`Code(err)` (src/exit.go lines 142-161). The process-wide handler slot
`errorHandlerFn` is passed explicitly. If `err` and the handler are both
non-nil and the handler reports handled, its code is returned at once
(the early return is modelled by the intermediate `Option Int`).
Otherwise the switch applies: nil gives `CodeOK`, a chain containing
`flag.ErrHelp` gives `CodeHelpErr`, a chain containing an `ExitError`
implementor gives the code of that value, anything else gives `CodeErr`.
-/
def Code (errorHandlerFn : Option ErrorHandlerFunc) (err : Option GoError) : Int :=
  let handlerResult : Option Int :=
    match err, errorHandlerFn with
    | some e, some fn =>
        let r := fn e
        if r.2 then some r.1 else none
    | _, _ => none
  match handlerResult with
  | some code => code
  | none =>
    match err with
    | none => CodeOK
    | some e =>
      if errorsIs e .flagErrHelp then CodeHelpErr
      else
        match errorsAsExitError e with
        | some ee => ExitCode ee
        | none => CodeErr

/--
Claim C1: for every nil error input, `Code` returns 0, and the result is
the same for every state of the handler slot, installed or not — the nil
check is not delegated to the handler.
-/
theorem code_nil_is_zero (errorHandlerFn : Option ErrorHandlerFunc) :
    Code errorHandlerFn none = 0 := by
  cases errorHandlerFn <;> rfl

/--
Claim C2: for every non-nil error `e`, if the installed handler returns
`(x, true)` on `e`, then `Code` returns `x`, whatever the builtin rules
would otherwise produce.
-/
theorem handler_handled_short_circuits (fn : ErrorHandlerFunc) (e : GoError)
    (x : Int) (h : fn e = (x, true)) :
    Code (some fn) (some e) = x := by
  simp [Code, h]

/--
Witness for C2: a handler returning `(42, true)` on the help sentinel
makes `Code` return 42, overriding the builtin help rule (which would
give 2).
-/
theorem handler_handled_short_circuits_witness :
    (fun _ : GoError => ((42 : Int), true)) GoError.flagErrHelp = (42, true) ∧
    Code (some (fun _ : GoError => ((42 : Int), true))) (some .flagErrHelp) = 42 :=
  ⟨rfl, handler_handled_short_circuits _ _ _ rfl⟩

/--
Claim C3: when the chain of `e` contains the `flag.ErrHelp` sentinel,
`Code` returns `CodeHelpErr` (2), with no handler installed and with a
handler that declines (`handled = false`), even when the chain also
carries an explicit exit code.
-/
theorem help_sentinel_precedence (e : GoError)
    (h : errorsIs e .flagErrHelp = true) :
    Code none (some e) = CodeHelpErr ∧
    ∀ fn : ErrorHandlerFunc, (fn e).2 = false →
      Code (some fn) (some e) = CodeHelpErr := by
  refine ⟨?_, ?_⟩
  · simp [Code, h]
  · intro fn hfn
    simp [Code, h, hfn]

/--
Witness for C3: a carrier with code 99 wrapping the help sentinel still
yields 2, with no handler and with a declining handler.
-/
theorem help_sentinel_precedence_witness :
    errorsIs (.exitErr 99 .flagErrHelp) .flagErrHelp = true ∧
    Code none (some (.exitErr 99 .flagErrHelp)) = CodeHelpErr ∧
    Code (some (fun _ : GoError => ((7 : Int), false)))
      (some (.exitErr 99 .flagErrHelp)) = CodeHelpErr := by
  refine ⟨by decide, ?_, ?_⟩
  · exact (help_sentinel_precedence _ (by decide)).1
  · exact (help_sentinel_precedence _ (by decide)).2 _ rfl

/--
Counterexample to C4 as stated: for `c = 99` and the non-nil error
`e = flag.ErrHelp`, with no handler, `Code (Error 99 e)` is 2, not 99 —
the help sentinel in the wrapped chain takes precedence over the carrier
code, so the round trip does not hold for every non-nil `e`.
-/
theorem code_roundtrip_counterexample :
    Code none (Error 99 (some GoError.flagErrHelp)) = CodeHelpErr ∧
    Code none (Error 99 (some GoError.flagErrHelp)) ≠ 99 := by
  decide

/--
C4 amended: for every code `c` and every non-nil error `e` whose chain
does not contain the `flag.ErrHelp` sentinel, with no handler installed,
`Code (Error c e) = c`, and the equality still holds after wrapping
`Error c e` in one more formatting layer (`fmt.Errorf` with the w verb).
-/
theorem code_roundtrip_no_help_sentinel (c : Int) (e : GoError) (m : String)
    (h : errorsIs e .flagErrHelp = false) :
    Code none (Error c (some e)) = c ∧
    Code none (some (.wrap m (.exitErr c e))) = c := by
  refine ⟨?_, ?_⟩
  · simp [Code, Error, errorsIs, h, errorsAsExitError, ExitCode]
  · simp [Code, errorsIs, h, errorsAsExitError, ExitCode]

/--
Witness for the amended C4: attaching code 74 to a plain error round
trips through `Code`, also under one extra wrapping layer.
-/
theorem code_roundtrip_no_help_sentinel_witness :
    errorsIs (.base "disk full") .flagErrHelp = false ∧
    Code none (Error 74 (some (.base "disk full"))) = 74 ∧
    Code none (some (.wrap "ctx: " (.exitErr 74 (.base "disk full")))) = 74 := by
  refine ⟨by decide, ?_, ?_⟩
  · exact (code_roundtrip_no_help_sentinel 74 _ "ctx: " (by decide)).1
  · exact (code_roundtrip_no_help_sentinel 74 _ "ctx: " (by decide)).2

/--
Claim C5: for every code `c`, `Error c nil` is nil — a carrier is never
constructed around a nil payload.
-/
theorem error_nil_yields_nil (c : Int) : Error c none = none := rfl

/--
Claim C6: for every non-nil error `e`, a handler answering `(x, false)`
leaves the result equal to that of the builtin rules (the handler-free
run of `Code`); the candidate `x` has no effect.
-/
theorem handler_unhandled_builtin_rules (fn : ErrorHandlerFunc) (e : GoError)
    (x : Int) (h : fn e = (x, false)) :
    Code (some fn) (some e) = Code none (some e) := by
  simp [Code, h]

/--
Witness for C6: a declining handler proposing 42 does not affect the
result on a plain error.
-/
theorem handler_unhandled_builtin_rules_witness :
    (fun _ : GoError => ((42 : Int), false)) (.base "boom") = (42, false) ∧
    Code (some (fun _ : GoError => ((42 : Int), false))) (some (.base "boom")) =
      Code none (some (.base "boom")) :=
  ⟨rfl, handler_unhandled_builtin_rules _ _ _ rfl⟩

/--
Claim C7 fails on the code: `Code` compares only against `flag.ErrHelp`;
the distinct `pflag.ErrHelp` sentinel (bare and wrapped) is not
recognized and falls through to the generic code 1 instead of the help
code 2 expected by the claim and by the repository test that checks
`pflag.ErrHelp` maps to 2.
-/
theorem pflag_help_not_recognized :
    Code none (some .pflagErrHelp) = CodeErr ∧
    Code none (some (.wrap "wrapped: " .pflagErrHelp)) = CodeErr ∧
    CodeErr ≠ CodeHelpErr := by
  decide

/--
Counterexample to C8 as stated: a slot holding the non-nil error
`flag.ErrHelp`, after `Errorp 64`, resolves to 2, not 64 — the help
sentinel in the wrapped chain takes precedence over the attached code.
-/
theorem errorp_counterexample :
    Code none (Errorp 64 (some GoError.flagErrHelp)) = CodeHelpErr ∧
    Code none (Errorp 64 (some GoError.flagErrHelp)) ≠ 64 := by
  decide

/--
C8 amended: a nil slot stays nil after `Errorp c`, and a slot holding a
non-nil error whose chain does not contain the `flag.ErrHelp` sentinel
afterwards satisfies `Code slot = c` with no handler installed.
-/
theorem errorp_sets_code (c : Int) :
    Errorp c none = none ∧
    ∀ e : GoError, errorsIs e .flagErrHelp = false →
      Code none (Errorp c (some e)) = c := by
  refine ⟨rfl, ?_⟩
  intro e h
  simp [Errorp, Code, Error, errorsIs, h, errorsAsExitError, ExitCode]

/--
Witness for the amended C8: `Errorp 77` keeps a nil slot nil and pins
code 77 on a slot holding a plain error.
-/
theorem errorp_sets_code_witness :
    errorsIs (.base "no perm") .flagErrHelp = false ∧
    Errorp 77 none = none ∧
    Code none (Errorp 77 (some (.base "no perm"))) = 77 := by
  exact ⟨by decide, (errorp_sets_code 77).1, (errorp_sets_code 77).2 _ (by decide)⟩

/--
Claim C9: for every code `c` and non-nil `e`, `Error c e` is the carrier
`exitErr c e`; unwrapping that carrier gives back exactly `e`, and its
exit-code capability reports `c`.
-/
theorem carrier_unwrap_exitcode (c : Int) (e : GoError) :
    Error c (some e) = some (.exitErr c e) ∧
    Unwrap (.exitErr c e) = some e ∧
    ExitCode (.exitErr c e) = c :=
  ⟨rfl, rfl, rfl⟩

/--
Claim C10: `Code` performs no range validation or clamping: for every
integer `c` — negative, zero, or above 255 — and every non-nil `e` with
no help sentinel in its chain, with no handler, `Code (Error c e)` is
exactly `c`.
-/
theorem no_code_clamping (c : Int) (e : GoError)
    (h : errorsIs e .flagErrHelp = false) :
    Code none (Error c (some e)) = c := by
  simp [Code, Error, errorsIs, h, errorsAsExitError, ExitCode]

/--
Witness for C10: codes -7, 0 and 300 are all passed through unchanged on
a plain error.
-/
theorem no_code_clamping_witness :
    errorsIs (.base "oops") .flagErrHelp = false ∧
    Code none (Error (-7) (some (.base "oops"))) = -7 ∧
    Code none (Error 0 (some (.base "oops"))) = 0 ∧
    Code none (Error 300 (some (.base "oops"))) = 300 :=
  ⟨by decide, no_code_clamping _ _ (by decide), no_code_clamping _ _ (by decide),
    no_code_clamping _ _ (by decide)⟩

end Exit
